import Mathlib

set_option maxRecDepth 40000

/-!
Verification of the BriteSide newsletter backend (`src/app.py` and
`src/config/briteside_config.py`) against its natural-language
specification.  The Python code is shallowly embedded: every definition
below transcribes the corresponding Python function or expression;
request handlers become pure functions, with the outcome of external
I/O (object storage, the email API) abstracted as an explicit
`Except`/oracle argument whose success and failure branches are
transcribed literally from the handler's `try`/`except` structure.
-/

/-! ## Generic string helpers -/

/-- The apostrophe character (written via its code point so the source
scans cleanly). -/
def apos : Char := Char.ofNat 39

/-- A string consisting of a single apostrophe. -/
def aposS : String := String.singleton apos

/-- Wrap a string in single quotes (used for CSS font names). -/
def squote (s : String) : String := aposS ++ s ++ aposS

/-- A template placeholder token: two opening braces, the name, two
closing braces (braces written as hex escapes). -/
def tok (name : String) : String := "\x7b\x7b" ++ name ++ "\x7d\x7d"

/-- Strip leading and trailing whitespace; embeds Python `str.strip()`
(written over the character list so that it evaluates by kernel
reduction; the inputs at issue are ASCII, where the two functions
agree). -/
def pyStrip (s : String) : String :=
  String.mk (((s.data.dropWhile Char.isWhitespace).reverse.dropWhile Char.isWhitespace).reverse)

/-- The first `n` characters of a string; embeds Python slicing
`s[:n]`. -/
def pyTake (s : String) (n : Nat) : String := String.mk (s.data.take n)

/-- Lower-case every character of a string; embeds Python `str.lower()`
(the employee data and emails in this repository are ASCII, where the
two functions agree). -/
def lowerStr (s : String) : String := String.mk (s.data.map Char.toLower)

/-- Whether `needle` is a prefix of `hay` (character lists). -/
def hasPrefixCL : List Char → List Char → Bool
  | _, [] => true
  | [], _ :: _ => false
  | c :: cs, d :: ds => c == d && hasPrefixCL cs ds

/-- Whether `needle` occurs as a contiguous substring of the character
list; embeds Python's `in` operator on strings. -/
def containsCL (needle : List Char) : List Char → Bool
  | [] => needle.isEmpty
  | c :: t => hasPrefixCL (c :: t) needle || containsCL needle t

/-- Whether `needle` occurs as a contiguous substring of `hay`. -/
def containsSub (hay needle : String) : Bool := containsCL needle.data hay.data

/-! ## `esc` — HTML escaping (src/app.py lines 213-217)

`esc` calls Python `html.escape` with the default `quote=True`, whose
sequential replacements (`&` first, then `<`, `>`, `"`, the apostrophe)
are equivalent to the character-wise map below. -/

/-- Escape one character the way `html.escape` does. -/
def escChar (c : Char) : String :=
  if c = '&' then "&amp;"
  else if c = '<' then "&lt;"
  else if c = '>' then "&gt;"
  else if c = '"' then "&quot;"
  else if c = apos then "&#x27;"
  else String.singleton c

/-- Escape a character list. -/
def escList : List Char → String
  | [] => ""
  | c :: cs => escChar c ++ escList cs

/-- HTML-escape user-generated text; `esc` in src/app.py (the Python
function returns `''` on falsy input, which for strings coincides with
escaping the empty string). -/
def esc (s : String) : String := escList s.data

/-! ## Data model of the render payload (src/app.py lines 886-900)

The request JSON fields consumed by `render_email`, given the types the
code treats them as.  A Python value read with `.get(key, '')` becomes a
`String`; an optional dict becomes an `Option`; a JSON list becomes a
`List`. -/

structure Birthday where
  name : String
  birthday_day : String
  department : String
deriving DecidableEq, Repr

structure Hire where
  name : String
  role : String
  fun_fact : String
deriving DecidableEq, Repr

structure QAPair where
  q : String
  a : String
deriving DecidableEq, Repr

structure Spotlight where
  name : String
  title : String
  blurb : String
  fun_facts : String
  image_url : String
  qa : List QAPair
deriving DecidableEq, Repr

structure Update where
  title : String
  body : String
  photos : List String
deriving DecidableEq, Repr

structure SpecialSection where
  title : String
  body : String
deriving DecidableEq, Repr

structure GameBlock where
  content : String
  image_url : String
  previous_answer : String
deriving DecidableEq, Repr

structure Payload where
  month : String
  year : Nat
  joke : String
  birthdays : List Birthday
  spotlight : Option Spotlight
  spotlights : List Spotlight
  updates : List Update
  updates_enabled : Bool
  special_section : Option SpecialSection
  welcome_hires : List Hire
  welcome_enabled : Bool
  game : Option GameBlock
deriving DecidableEq, Repr

/-- A payload with every field at its `render_email` default. -/
def basePayload : Payload :=
  { month := "May", year := 2026, joke := "", birthdays := [],
    spotlight := none, spotlights := [], updates := [],
    updates_enabled := true, special_section := none,
    welcome_hires := [], welcome_enabled := false, game := none }

/-! ## Joke split, displays, preheader (src/app.py lines 1171-1192) -/

/-- Split a character list at the first bar character, if any;
embeds `str.split(<bar>, 1)` guarded by the `in` test. -/
def breakAtBar : List Char → List Char × Option (List Char)
  | [] => ([], none)
  | c :: cs =>
    if c = '|' then ([], some cs)
    else
      let r := breakAtBar cs
      (c :: r.1, r.2)

/-- `joke_setup` of `render_email`: the escaped whole joke, or, when
the joke contains a bar, the escaped stripped part before the first
bar. -/
def joke_setup (joke : String) : String :=
  match breakAtBar joke.data with
  | (_, none) => esc joke
  | (pre, some _) => esc (pyStrip (String.mk pre))

/-- `joke_punchline` of `render_email`: empty when no bar, else the
escaped stripped part after the first bar. -/
def joke_punchline (joke : String) : String :=
  match breakAtBar joke.data with
  | (_, none) => ""
  | (_, some post) => esc (pyStrip (String.mk post))

/-- `punchline_display` (line 1187). -/
def punchline_display (joke : String) : String :=
  if joke_punchline joke ≠ "" then "table-row" else "none"

/-- `preheader` (lines 1190-1192): generic month/year string, replaced
by the first 100 characters of `joke_setup` when that is non-empty. -/
def preheader (month : String) (year : Nat) (joke : String) : String :=
  if joke_setup joke ≠ "" then pyTake (joke_setup joke) 100
  else "The BriteSide - " ++ month ++ " " ++ toString year

/-! ## HTML fragment builders of `render_email` (src/app.py lines 922-1169) -/

/-- The `FONT` constant (line 923). -/
def FONT : String :=
  "-apple-system, BlinkMacSystemFont, " ++ squote "Segoe UI" ++ ", Roboto, Arial, sans-serif"

/-- One birthday table row (lines 929-937). -/
def birthdayItem (month : String) (bday : Birthday) : String :=
  let bday_name := esc bday.name
  let bday_day := esc bday.birthday_day
  let bday_dept := esc bday.department
  "<tr><td style=\"padding: 6px 12px; font-family: " ++ FONT ++
    "; font-size: 15px; font-weight: 600; color: #272D3F;\">" ++ bday_name ++ "</td>" ++
  "<td style=\"padding: 6px 12px; font-family: " ++ FONT ++
    "; font-size: 15px; color: #6b7280;\">" ++ month ++ " " ++ bday_day ++ "</td>" ++
  "<td style=\"padding: 6px 12px; font-family: " ++ FONT ++
    "; font-size: 15px; color: #6b7280;\">" ++ bday_dept ++ "</td></tr>"

/-- `birthday_html` (lines 926-938). -/
def birthday_html (p : Payload) : String :=
  if p.birthdays.isEmpty then ""
  else String.intercalate "\n" (p.birthdays.map (birthdayItem p.month))

/-- One welcome-hire table row (lines 944-954). -/
def hireItem (hire : Hire) : String :=
  let h_name := esc hire.name
  let h_role := esc hire.role
  let h_fact := esc hire.fun_fact
  "<tr><td align=\"center\" style=\"padding: 14px 0; border-bottom: 1px solid #e8f5f5; font-family: " ++
    FONT ++ "; text-align: center;\">" ++
  "<p style=\"margin: 0 0 2px 0; font-family: " ++ FONT ++
    "; font-size: 17px; font-weight: 700; color: #272D3F;\">" ++ h_name ++ "</p>" ++
  "<p style=\"margin: 0; font-family: " ++ FONT ++
    "; font-size: 14px; color: #31D7CA; font-style: italic;\">" ++ h_role ++ "</p>" ++
  (if h_fact ≠ "" then
    "<p style=\"margin: 4px 0 0 0; font-family: " ++ FONT ++
      "; font-size: 13px; color: #6b7280;\">Fun fact: " ++ h_fact ++ "</p>"
   else "") ++
  "</td></tr>"

/-- `welcome_html` (lines 941-955). -/
def welcome_html (p : Payload) : String :=
  if p.welcome_enabled ∧ ¬p.welcome_hires.isEmpty then
    String.intercalate "\n" (p.welcome_hires.map hireItem)
  else ""

/-- `spotlight_list` (line 959): the `spotlights` array if non-empty,
falling back to the legacy single `spotlight` when it carries a name. -/
def spotlight_list (p : Payload) : List Spotlight :=
  if ¬p.spotlights.isEmpty then p.spotlights
  else match p.spotlight with
    | some sp => if sp.name ≠ "" then [sp] else []
    | none => []

/-- `valid_spotlights` (line 961). -/
def valid_spotlights (p : Payload) : List Spotlight :=
  (spotlight_list p).filter (fun sp => sp.name ≠ "")

/-- The dashed divider inserted between successive spotlights
(lines 970-977). -/
def spotlightSep : String :=
  "<table role=\"presentation\" cellspacing=\"0\" cellpadding=\"0\" border=\"0\" width=\"100%\">" ++
  "<tr><td style=\"height: 1px; padding: 28px 0; font-size: 1px; line-height: 1px;\">" ++
  "<table role=\"presentation\" cellspacing=\"0\" cellpadding=\"0\" border=\"0\" width=\"100%\">" ++
  "<tr><td style=\"height: 0; border-top: 2px dashed #31D7CA; font-size: 1px; line-height: 1px;\">&nbsp;</td></tr>" ++
  "</table></td></tr></table>"

/-- One Q&A row of a spotlight (lines 1009-1018); empty unless both the
escaped question and answer are non-empty. -/
def qaPairHtml (pair : QAPair) : String :=
  let q_text := esc pair.q
  let a_text := esc pair.a
  if q_text ≠ "" ∧ a_text ≠ "" then
    "<tr><td align=\"center\" style=\"padding: 6px 0; text-align: center;\">" ++
    "<p style=\"margin: 0; font-family: " ++ FONT ++
      "; font-size: 14px; color: #272D3F; font-weight: 700;\">" ++ q_text ++ "</p>" ++
    "<p style=\"margin: 0; font-family: " ++ FONT ++
      "; font-size: 15px; color: #444444;\">" ++ a_text ++ "</p>" ++
    "</td></tr>"
  else ""

/-- The fragment contributed by the spotlight at position `idx` of
`valid_spotlights` (lines 962-1042). -/
def spotlightEntryHtml (idx : Nat) (sp : Spotlight) : String :=
  let sp_name := esc sp.name
  let sp_title := esc sp.title
  let sp_blurb := esc sp.blurb
  let sp_fun_facts := esc sp.fun_facts
  let sp_image_url := sp.image_url
  let qa_html := String.join (sp.qa.map qaPairHtml)
  (if idx > 0 then spotlightSep else "") ++
  "<table role=\"presentation\" cellspacing=\"0\" cellpadding=\"0\" border=\"0\" width=\"100%\">" ++
  (if sp_image_url ≠ "" then
    "<tr><td align=\"center\" style=\"padding-bottom: 16px;\">" ++
    "<!--[if !mso]><!-->" ++
    "<img src=\"" ++ sp_image_url ++ "\" width=\"120\" alt=\"" ++ sp_name ++ "\" " ++
    "style=\"width: 120px; height: 120px; border-radius: 50%; object-fit: cover; display: block;\">" ++
    "<!--<![endif]-->" ++
    "<!--[if mso]>" ++
    "<img src=\"" ++ sp_image_url ++ "\" width=\"120\" alt=\"" ++ sp_name ++ "\" " ++
    "style=\"width: 120px; height: auto; display: block;\">" ++
    "<![endif]-->" ++
    "</td></tr>"
   else "") ++
  "<tr><td align=\"center\" style=\"padding-bottom: 2px;\">" ++
  "<p style=\"margin: 0; font-family: " ++ FONT ++
    "; font-size: 20px; font-weight: 800; color: #272D3F;\">" ++ sp_name ++ "</p>" ++
  "</td></tr>" ++
  "<tr><td align=\"center\" style=\"padding-bottom: 16px;\">" ++
  "<p style=\"margin: 0; font-family: " ++ FONT ++
    "; font-size: 13px; font-weight: 700; color: #31D7CA; text-transform: uppercase; letter-spacing: 1px;\">" ++
    sp_title ++ "</p>" ++
  "</td></tr>" ++
  (if qa_html ≠ "" then
    "<tr><td style=\"padding: 0 0 16px 0;\">" ++
    "<table role=\"presentation\" cellspacing=\"0\" cellpadding=\"0\" border=\"0\" width=\"100%\">" ++
    qa_html ++ "</table></td></tr>"
   else "") ++
  (if sp_blurb ≠ "" then
    "<tr><td align=\"center\" style=\"padding-bottom: 8px; text-align: center;\">" ++
    "<p style=\"margin: 0; font-family: " ++ FONT ++
      "; font-size: 15px; line-height: 25px; color: #444444; font-style: italic;\">" ++ sp_blurb ++ "</p>" ++
    "</td></tr>"
   else "") ++
  (if sp_fun_facts ≠ "" then
    "<tr><td align=\"center\" style=\"padding-bottom: 8px; text-align: center;\">" ++
    "<p style=\"margin: 0; font-family: " ++ FONT ++
      "; font-size: 14px; line-height: 22px; color: #6b7280;\">Fun fact: " ++ sp_fun_facts ++ "</p>" ++
    "</td></tr>"
   else "") ++
  "</table>"

/-- Enumerate the valid spotlights with their position. -/
def spotlightEntries : Nat → List Spotlight → String
  | _, [] => ""
  | idx, sp :: rest => spotlightEntryHtml idx sp ++ spotlightEntries (idx + 1) rest

/-- `spotlight_section_html` (lines 960-1042). -/
def spotlight_section_html (p : Payload) : String :=
  spotlightEntries 0 (valid_spotlights p)

/-! ## Update photos grid (src/app.py lines 1059-1121) -/

/-- The effective updates list: emptied when the enabled flag is off
(lines 1060-1061). -/
def updatesEff (p : Payload) : List Update :=
  if p.updates_enabled then p.updates else []

/-- One cell of the multi-photo grid, including the row break emitted
before cells at even positions after the first (lines 1094-1108). -/
def photoCell (n pIdx : Nat) (photo_url : String) : String :=
  let rowbreak := if pIdx > 0 ∧ pIdx % 2 = 0 then "</tr><tr>" else ""
  let cell_width := if n - pIdx ≥ 2 ∨ pIdx % 2 = 1 then "50%" else "100%"
  let pad_right := if pIdx % 2 = 0 ∧ pIdx + 1 < n then "4px" else "0"
  let pad_left := if pIdx % 2 = 1 then "4px" else "0"
  let colspan := if cell_width = "100%" then " colspan=\"2\"" else ""
  rowbreak ++
  "<td" ++ colspan ++ " width=\"" ++ cell_width ++ "\" style=\"padding-right: " ++ pad_right ++
    "; padding-left: " ++ pad_left ++ "; padding-bottom: 8px;\" valign=\"top\">" ++
  "<img src=\"" ++ photo_url ++ "\" width=\"248\" " ++
  "style=\"width: 100%; height: auto; border-radius: 8px; display: block;\" " ++
  "alt=\"Update photo\" class=\"mobile-img-full\">" ++
  "</td>"

/-- The cells of the multi-photo grid, `n` being the total photo count
and the first argument the position of the head of the list. -/
def photoCells (n : Nat) : Nat → List String → String
  | _, [] => ""
  | i, url :: rest => photoCell n i url ++ photoCells n (i + 1) rest

/-- `photos_html` for one update, applied to the already-filtered list
of non-empty photo URLs (lines 1080-1109). -/
def photos_html (photos : List String) : String :=
  if photos.length = 1 then
    "<img src=\"" ++ photos.headD "" ++ "\" width=\"516\" " ++
    "style=\"width: 100%; height: auto; border-radius: 8px; margin-top: 12px; display: block;\" " ++
    "alt=\"Update photo\" class=\"mobile-img-full\">"
  else if photos.length ≥ 2 then
    "<table role=\"presentation\" cellspacing=\"0\" cellpadding=\"0\" border=\"0\" width=\"100%\" style=\"margin-top: 12px;\">" ++
    "<tr>" ++ photoCells photos.length 0 photos ++ "</tr></table>"
  else ""

/-- The photo block of one update: its `photos` entry with falsy URLs
filtered out (line 1079), rendered by `photos_html`. -/
def updatePhotoBlock (u : Update) : String :=
  photos_html (u.photos.filter (fun ph => ph ≠ ""))

/-- The update placed in numbered slot `i` (zero-based): only the first
three updates are rendered (line 1074). -/
def updateAt (p : Payload) (i : Nat) : Option Update :=
  ((updatesEff p).take 3)[i]?

/-- `update_<i+1>_title` (lines 1064-1121). -/
def update_title (p : Payload) (i : Nat) : String :=
  match updateAt p i with
  | some u => esc u.title
  | none => ""

/-- `update_<i+1>_body`. -/
def update_body (p : Payload) (i : Nat) : String :=
  match updateAt p i with
  | some u => esc u.body
  | none => ""

/-- `update_<i+1>_photos_html`. -/
def update_photos_html (p : Payload) (i : Nat) : String :=
  match updateAt p i with
  | some u => updatePhotoBlock u
  | none => ""

/-! ## Special section and game section (src/app.py lines 1123-1169) -/

/-- `special_title` (line 1126). -/
def special_title (p : Payload) : String :=
  esc (match p.special_section with
       | some s => s.title
       | none => "")

/-- `special_body` (line 1127). -/
def special_body (p : Payload) : String :=
  esc (match p.special_section with
       | some s => s.body
       | none => "")

/-- `game_content` (line 1132) — note: not passed through `esc`. -/
def game_content (p : Payload) : String :=
  match p.game with
  | some g => g.content
  | none => ""

/-- `game_image_url` (line 1133). -/
def game_image_url (p : Payload) : String :=
  match p.game with
  | some g => g.image_url
  | none => ""

/-- `game_previous_answer` (line 1134) — note: not passed through `esc`. -/
def game_previous_answer (p : Payload) : String :=
  match p.game with
  | some g => g.previous_answer
  | none => ""

/-- `game_section_html` (lines 1136-1169). -/
def game_section_html (p : Payload) : String :=
  let c := game_content p
  let img := game_image_url p
  let prev := game_previous_answer p
  if c ≠ "" ∨ img ≠ "" then
    "<table role=\"presentation\" cellspacing=\"0\" cellpadding=\"0\" border=\"0\" width=\"100%\">" ++
    (if img ≠ "" then
      "<tr><td align=\"center\" style=\"padding-bottom: 10px; text-align: center;\">" ++
      "<img src=\"" ++ img ++ "\" width=\"460\" " ++
      "style=\"width: 100%; max-width: 460px; height: auto; border-radius: 8px; display: block; margin: 0 auto;\" " ++
      "alt=\"BriteSide Brain Teaser\">" ++
      "</td></tr>"
     else "") ++
    (if c ≠ "" then
      "<tr><td align=\"center\" style=\"padding-bottom: 10px; text-align: center;\">" ++
      "<p style=\"margin: 0; font-family: " ++ FONT ++
        "; font-size: 15px; line-height: 24px; color: #444444; text-align: center;\">" ++ c ++ "</p>" ++
      "</td></tr>"
     else "") ++
    ("<tr><td align=\"center\" style=\"text-align: center;\">" ++
     "<p style=\"margin: 0; font-family: " ++ FONT ++
       "; font-size: 15px; font-weight: 700; color: #018181; text-align: center;\">" ++
     "Email Dove your answer &mdash; the winner gets 100 BriteCo Bucks!</p>" ++
     "</td></tr>") ++
    (if prev ≠ "" then
      "<tr><td align=\"center\" style=\"padding-top: 10px; text-align: center;\">" ++
      "<table role=\"presentation\" cellspacing=\"0\" cellpadding=\"0\" border=\"0\" style=\"margin: 0 auto;\">" ++
      "<tr><td style=\"padding: 10px 14px; background-color: #f0fdf4; border-radius: 8px; border: 1px solid #86efac; text-align: center;\">" ++
      "<p style=\"margin: 0 0 2px 0; font-family: " ++ FONT ++
        "; font-size: 12px; font-weight: 700; text-transform: uppercase; color: #059669; letter-spacing: 1px;\">Last Month" ++
        aposS ++ "s Answer</p>" ++
      "<p style=\"margin: 0; font-family: " ++ FONT ++
        "; font-size: 15px; color: #272D3F;\">" ++ prev ++ "</p>" ++
      "</td></tr></table>" ++
      "</td></tr>"
     else "") ++
    "</table>"
  else ""

/-! ## Conditional display values (src/app.py lines 1180-1187) -/

/-- `birthday_display` (line 1180). -/
def birthday_display (p : Payload) : String :=
  if ¬p.birthdays.isEmpty then "table-row" else "none"

/-- `welcome_display` (line 1181). -/
def welcome_display (p : Payload) : String :=
  if p.welcome_enabled ∧ ¬p.welcome_hires.isEmpty then "table-row" else "none"

/-- `update_2_display` (line 1182). -/
def update_2_display (p : Payload) : String :=
  if update_title p 1 ≠ "" ∨ update_body p 1 ≠ "" then "table-row" else "none"

/-- `update_3_display` (line 1183). -/
def update_3_display (p : Payload) : String :=
  if update_title p 2 ≠ "" ∨ update_body p 2 ≠ "" then "table-row" else "none"

/-- `updates_display` (line 1184); by lines 1060-1061 the list consulted
here is already emptied when the flag is off. -/
def updates_display (p : Payload) : String :=
  if p.updates_enabled ∧ ¬(updatesEff p).isEmpty then "table-row" else "none"

/-- `special_display` (line 1185). -/
def special_display (p : Payload) : String :=
  if special_title p ≠ "" ∨ special_body p ≠ "" then "table-row" else "none"

/-- `game_display` (line 1186). -/
def game_display (p : Payload) : String :=
  if game_section_html p ≠ "" then "table-row" else "none"

/-! ## Template selection and full substitution (src/app.py lines 882-1248) -/

/-- `allowed_templates` (lines 904-908). -/
def allowed_templates : List String :=
  ["briteside-email.html", "briteside-email-playful.html", "briteside-email-teal.html"]

/-- Template selection (lines 903-910): a selector outside the
allow-list silently becomes the classic template. -/
def selectedTemplate (requested : String) : String :=
  if requested ∈ allowed_templates then requested else "briteside-email.html"

/-- Legacy single-spotlight `spotlight_name` (line 1047) — note: raw,
not escaped. -/
def spotlight_name (p : Payload) : String :=
  match p.spotlight with
  | some sp => sp.name
  | none => ""

/-- Legacy `spotlight_title_val` (line 1048) — raw. -/
def spotlight_title_val (p : Payload) : String :=
  match p.spotlight with
  | some sp => sp.title
  | none => ""

/-- Legacy `spotlight_blurb` (line 1049) — raw. -/
def spotlight_blurb (p : Payload) : String :=
  match p.spotlight with
  | some sp => sp.blurb
  | none => ""

/-- Legacy `spotlight_image_html` (lines 1050-1057). -/
def spotlight_image_html (p : Payload) : String :=
  let url := match p.spotlight with
             | some sp => sp.image_url
             | none => ""
  if url ≠ "" then
    "<img src=\"" ++ url ++ "\" width=\"120\" alt=\"" ++ spotlight_name p ++ "\" " ++
    "style=\"width: 120px; height: 120px; border-radius: 50%; object-fit: cover; display: block;\" " ++
    "class=\"mobile-img-full\">"
  else ""

/-- Remove trailing slashes; embeds `str.rstrip(<slash>)` on the host
URL (line 1195). -/
def rstripSlash (s : String) : String :=
  String.mk ((s.data.reverse.dropWhile (fun c => c == '/')).reverse)

/-- Response metadata of the render endpoint (lines 1240-1247). -/
structure RenderMeta where
  month : String
  year : Nat
  birthday_count : Nat
  update_count : Nat
  has_spotlight : Bool
  has_special_section : Bool
deriving DecidableEq, Repr

/-- Outcome of the render endpoint: the 404 branch when the selected
template file is missing, or the substituted document with metadata. -/
inductive RenderResult where
  | notFound (error : String)
  | ok (html : String) (meta : RenderMeta)
deriving DecidableEq, Repr

/-- The placeholder substitutions of lines 1196-1233, applied in source
order to the template text. -/
def substitutePlaceholders (host_url : String) (p : Payload) (tmpl : String) : String :=
  let base_url := rstripSlash host_url
  let html := tmpl.replace "/static/briteco-logo-white.png"
                (base_url ++ "/static/briteco-logo-white.png")
  let html := html.replace (tok "MONTH") p.month
  let html := html.replace (tok "YEAR") (toString p.year)
  let html := html.replace (tok "PREHEADER") (preheader p.month p.year p.joke)
  let html := html.replace (tok "INTRO_LINE") ""
  let html := html.replace (tok "INTRO_DISPLAY") "none"
  let html := html.replace (tok "JOKE") p.joke
  let html := html.replace (tok "JOKE_SETUP") (joke_setup p.joke)
  let html := html.replace (tok "JOKE_PUNCHLINE") (joke_punchline p.joke)
  let html := html.replace (tok "PUNCHLINE_DISPLAY") (punchline_display p.joke)
  let html := html.replace (tok "BIRTHDAY_DISPLAY") (birthday_display p)
  let html := html.replace (tok "BIRTHDAY_SECTION") (birthday_html p)
  let html := html.replace (tok "WELCOME_DISPLAY") (welcome_display p)
  let html := html.replace (tok "WELCOME_SECTION") (welcome_html p)
  let html := html.replace (tok "SPOTLIGHT_SECTION") (spotlight_section_html p)
  let html := html.replace (tok "SPOTLIGHT_IMAGE") (spotlight_image_html p)
  let html := html.replace (tok "SPOTLIGHT_NAME") (spotlight_name p)
  let html := html.replace (tok "SPOTLIGHT_TITLE") (spotlight_title_val p)
  let html := html.replace (tok "SPOTLIGHT_BLURB") (spotlight_blurb p)
  let html := html.replace (tok "UPDATES_DISPLAY") (updates_display p)
  let html := html.replace (tok "UPDATE_1_TITLE") (update_title p 0)
  let html := html.replace (tok "UPDATE_1_BODY") (update_body p 0)
  let html := html.replace (tok "UPDATE_1_PHOTOS") (update_photos_html p 0)
  let html := html.replace (tok "UPDATE_2_TITLE") (update_title p 1)
  let html := html.replace (tok "UPDATE_2_BODY") (update_body p 1)
  let html := html.replace (tok "UPDATE_2_PHOTOS") (update_photos_html p 1)
  let html := html.replace (tok "UPDATE_2_DISPLAY") (update_2_display p)
  let html := html.replace (tok "UPDATE_3_TITLE") (update_title p 2)
  let html := html.replace (tok "UPDATE_3_BODY") (update_body p 2)
  let html := html.replace (tok "UPDATE_3_PHOTOS") (update_photos_html p 2)
  let html := html.replace (tok "UPDATE_3_DISPLAY") (update_3_display p)
  let html := html.replace (tok "SPECIAL_TITLE") (special_title p)
  let html := html.replace (tok "SPECIAL_BODY") (special_body p)
  let html := html.replace (tok "SPECIAL_SECTION_DISPLAY") (special_display p)
  let html := html.replace (tok "GAME_DISPLAY") (game_display p)
  let html := html.replace (tok "GAME_SECTION") (game_section_html p)
  html

/-- `render_email` (lines 882-1248): `readTemplate` abstracts the file
system under `templates/`, `host_url` the serving request's host URL. -/
def render_email (readTemplate : String → Option String) (host_url : String)
    (p : Payload) (requested : String) : RenderResult :=
  let template_file := selectedTemplate requested
  match readTemplate template_file with
  | none => .notFound ("Template not found: " ++ template_file)
  | some tmpl =>
    .ok (substitutePlaceholders host_url p tmpl)
      { month := p.month, year := p.year,
        birthday_count := p.birthdays.length,
        update_count := (updatesEff p).length,
        has_spotlight := spotlight_name p ≠ "",
        has_special_section := special_title p ≠ "" }

/-! ## Employee directory (src/app.py lines 438-500,
src/config/briteside_config.py lines 12-67) -/

structure Employee where
  name : String
  email : String
  birthday_month : Nat
  birthday_day : Nat
  department : String
  title : String
deriving DecidableEq, Repr

/-- The `EMPLOYEES` list of src/config/briteside_config.py, transcribed
entry for entry. -/
def EMPLOYEES : List Employee := [
  ⟨"Alexia Trejo", "alexia.trejo@brite.co", 4, 10, "", "Underwriting Assistant"⟩,
  ⟨"Anna Sotelo", "anna.sotelo@brite.co", 0, 0, "", "Account Executive"⟩,
  ⟨"Azim Usmanov", "Azim.Usmanov@brite.co", 0, 0, "", "Technology Intern"⟩,
  ⟨"Ben Glispie", "ben.glispie@brite.co", 2, 1, "", "National Agent Channel Lead"⟩,
  ⟨"Ben Mautner", "ben.mautner@brite.co", 8, 17, "", "CIO"⟩,
  ⟨"Brenno Cardoso", "brenno.cardoso@brite.co", 8, 17, "", "Marketing Tech Specialist"⟩,
  ⟨"Brian Babor", "Brian.Babor@brite.co", 0, 0, "", "SEO/GEO Growth Assistant"⟩,
  ⟨"Brian Kelly", "brian.kelly@brite.co", 7, 7, "", "Account Executive"⟩,
  ⟨"Cameron Chapman", "cameron.chapman@brite.co", 2, 20, "", "Underwriting Assistant"⟩,
  ⟨"Chane Walraven", "chane.walraven@brite.co", 0, 0, "", "Underwriting Support Staff"⟩,
  ⟨"Christine Belling", "christine.belling@brite.co", 6, 19, "", "Director of Customer Success"⟩,
  ⟨"Conor Redmond", "conor.redmond@brite.co", 3, 30, "", "Chief Actuary"⟩,
  ⟨"Dana Koutnik", "dana.koutnik@brite.co", 7, 31, "", "Jeweler Innovation and Partner Success Manager"⟩,
  ⟨"Darel Jevens", "Darel.Jevens@brite.co", 0, 0, "", "Content Writing / Editor"⟩,
  ⟨"Dove Tugadi", "dove@brite.co", 12, 20, "", "Executive Assistant"⟩,
  ⟨"Dustin Lemick", "dustin.lemick@brite.co", 2, 13, "", "CEO"⟩,
  ⟨"Dustin Sitar", "dustin.sitar@brite.co", 4, 23, "", "Head of Growth & Marketing"⟩,
  ⟨"Dylanne Crugnale", "dylanne.crugnale@brite.co", 4, 5, "", "Director of Strategic Marketing"⟩,
  ⟨"Edgar Diengdoh", "edgar.diengdoh@brite.co", 2, 27, "", "SEO & Marketing Manager"⟩,
  ⟨"Ellen Zeff", "Ellen.Zeff@brite.co", 0, 0, "", "Appraiser"⟩,
  ⟨"Ellie Asiuras", "ellie.asiuras@brite.co", 8, 29, "", "Underwriting Manager"⟩,
  ⟨"Esmeralda Galvan", "esme.galvan@brite.co", 11, 14, "", "Underwriter"⟩,
  ⟨"Hannah Greene-Gretzinger", "hannah.greene-gretzinger@brite.co", 11, 19, "", "Marketing Specialist Organic & Paid Social"⟩,
  ⟨"Jack Courtad", "jack.courtad@brite.co", 4, 26, "", "Digital Marketing Intern"⟩,
  ⟨"Jeff Felix", "jeff.felix@brite.co", 0, 0, "", "Account Executive"⟩,
  ⟨"John Ortbal", "john.ortbal@brite.co", 11, 13, "", "Senior Advisor"⟩,
  ⟨"Jomar Pabua", "jomar.pabua@brite.co", 0, 0, "", "Underwriting Assistant"⟩,
  ⟨"Juannette Van der Walt", "juannette.vanderwalt@brite.co", 0, 0, "", "Underwriting Support Staff"⟩,
  ⟨"Kaitlyn Rigdon", "kaitlyn.rigdon@brite.co", 11, 3, "", "Claims/Fulfillment Team Lead"⟩,
  ⟨"Kevin Walters", "kevin.walters@brite.co", 11, 20, "", "Senior Systems Engineer"⟩,
  ⟨"Lauren Appenfeller", "lauren.appenfeller@brite.co", 11, 11, "", "Digital Media Specialist"⟩,
  ⟨"Madisyn Kafer", "madisyn.kafer@brite.co", 9, 5, "", "Underwriting Assistant"⟩,
  ⟨"Mardon Ballares", "marlon.ballares@brite.co", 0, 0, "", "Underwriting Assistant"⟩,
  ⟨"Mark Machan", "mark.machan@brite.co", 0, 0, "", "Account Executive"⟩,
  ⟨"Marlon Ballares", "marlon.ballares@brite.co", 0, 0, "", "Underwriting Support Staff"⟩,
  ⟨"Mick Dela Cruz", "Mick.DelaCruz@brite.co", 0, 0, "", "Business Development Representative"⟩,
  ⟨"Paxton Washington", "paxton.washington@brite.co", 5, 22, "", "Jewelry Specialist in Underwriting"⟩,
  ⟨"Rachel Akmakjian", "rachel.akmakjian@brite.co", 2, 24, "", "Growth & Partnership Manager"⟩,
  ⟨"Ryan McQuilkin", "ryan.mcquilkin@brite.co", 2, 21, "", "Account Executive"⟩,
  ⟨"Ryan Ponce", "ryan.ponce@brite.co", 10, 1, "", "Account Executive"⟩,
  ⟨"Saba Patel", "saba.patel@brite.co", 7, 13, "", "Sales Assistant"⟩,
  ⟨"Sabrina Lin", "sabrina.lin@brite.co", 0, 0, "", "Appraiser"⟩,
  ⟨"Sam MacGregor", "sam.macgregor@brite.co", 5, 11, "", "Senior Sales Operation Manager"⟩,
  ⟨"Selena Fragassi", "selena.fragassi@brite.co", 5, 8, "", "Content Editor"⟩,
  ⟨"Sheena Sims", "sheena.sims@brite.co", 10, 9, "", "Customer Service Representative"⟩,
  ⟨"Stephanie Block", "stephanie.block@brite.co", 6, 20, "", "Customer Experience Team Lead"⟩,
  ⟨"Stephanie Lynn", "stephanie.lynn@brite.co", 1, 19, "", "Project Manager"⟩,
  ⟨"Tania Figueroa", "tania.figueroa@brite.co", 0, 0, "", "Creative"⟩,
  ⟨"Teagyn Lindley", "teagyn.lindley@brite.co", 8, 25, "", "Claims Coordinator"⟩,
  ⟨"Tiffany Zhou", "tiffany.zhou@brite.co", 0, 0, "", "Appraiser"⟩,
  ⟨"Vivian Aufang", "vivian.aufang@brite.co", 0, 0, "", "Appraiser"⟩,
  ⟨"Yianni Asiuras", "Yianni.Asiuras@brite.co", 0, 0, "", "Underwriting Assistant"⟩,
  ⟨"Zayaan Rahman", "zayaan.rahman@brite.co", 0, 0, "", "Underwriting Support Staff"⟩]

/-- The body of an add-employee request (lines 442-444 and 456-463). -/
structure AddRequest where
  name : String
  email : String
  birthday_month : Nat
  birthday_day : Nat
  department : String
  title : String
deriving DecidableEq, Repr

/-- Outcome of the add-employee endpoint: 400, 409 or 200. -/
inductive AddResult where
  | badRequest (error : String)
  | conflict (error : String)
  | ok (employee : Employee) (total : Nat)
deriving DecidableEq, Repr

/-- The name ordering used by `EMPLOYEES.sort(key=lambda e: e['name'].lower())`. -/
def nameLe (a b : Employee) : Bool := decide (lowerStr a.name ≤ lowerStr b.name)

/-- `add_employee` (lines 438-474), returning the response and the new
list state. -/
def add_employee (employees : List Employee) (req : AddRequest) :
    AddResult × List Employee :=
  let name := pyStrip req.name
  let email := pyStrip req.email
  if name = "" then (.badRequest "Employee name is required", employees)
  else if email = "" then (.badRequest "Employee email is required", employees)
  else if employees.any (fun emp => lowerStr emp.email == lowerStr email) then
    (.conflict ("Employee with email " ++ email ++ " already exists"), employees)
  else
    let new_employee : Employee :=
      ⟨name, email, req.birthday_month, req.birthday_day, req.department, req.title⟩
    let sorted := (employees ++ [new_employee]).mergeSort nameLe
    (.ok new_employee sorted.length, sorted)

/-- Outcome of the remove-employee endpoint: 400, 404 or 200. -/
inductive RemoveResult where
  | badRequest (error : String)
  | notFound (error : String)
  | ok (total : Nat)
deriving DecidableEq, Repr

/-- `remove_employee` (lines 477-500), returning the response and the
new list state (the Python code reassigns the list before comparing the
counts; on no match the filtered list coincides with the original). -/
def remove_employee (employees : List Employee) (reqEmail : String) :
    RemoveResult × List Employee :=
  let email := lowerStr (pyStrip reqEmail)
  if email = "" then (.badRequest "Employee email is required", employees)
  else
    let remaining := employees.filter (fun emp => lowerStr emp.email ≠ email)
    if remaining.length = employees.length then
      (.notFound ("Employee with email " ++ email ++ " not found"), remaining)
    else
      (.ok remaining.length, remaining)

/-! ## Newsletter sending (src/app.py lines 1256-1323) -/

/-- The outcome of one SendGrid send: a response status code, or a
raised exception. -/
inductive SendOutcome where
  | ok (status : Nat)
  | exn (msg : String)
deriving DecidableEq, Repr

/-- Whether one recipient's send counts as delivered (line 1300). -/
def delivered (send : String → SendOutcome) (recipient : String) : Bool :=
  match send recipient with
  | .ok status => [200, 201, 202].contains status
  | .exn _ => false

/-- The per-recipient error string (lines 1304 and 1307). -/
def failMsg (send : String → SendOutcome) (recipient : String) : String :=
  match send recipient with
  | .ok status => "Failed for " ++ recipient ++ ": status " ++ toString status
  | .exn msg => "Failed for " ++ recipient ++ ": " ++ msg

/-- The send loop (lines 1288-1308): the count of delivered messages
and the error strings collected in recipient order. -/
def sendLoop (send : String → SendOutcome) : List String → Nat × List String
  | [] => (0, [])
  | r :: rest =>
    let step : Nat × List String :=
      match send r with
      | .ok status =>
        if [200, 201, 202].contains status then (1, [])
        else (0, ["Failed for " ++ r ++ ": status " ++ toString status])
      | .exn msg => (0, ["Failed for " ++ r ++ ": " ++ msg])
    let rec_ := sendLoop send rest
    (step.1 + rec_.1, step.2 ++ rec_.2)

/-- The 200-response body of the send endpoint (lines 1312-1318). -/
structure SendResponse where
  success : Bool
  message : String
  sent_count : Nat
  total_recipients : Nat
  errors : Option (List String)
deriving DecidableEq, Repr

/-- Outcome of the send endpoint: 400/500 error bodies, or the
per-recipient accounting. -/
inductive SendResult where
  | badRequest (error : String)
  | serverError (error : String)
  | done (r : SendResponse)
deriving DecidableEq, Repr

/-- `send_newsletter` (lines 1256-1318); `send` abstracts the SendGrid
client's behaviour per recipient. -/
def send_newsletter (sendgridAvailable : Bool) (apiKey : Option String)
    (recipients : List String) (subject html_content : String)
    (send : String → SendOutcome) : SendResult :=
  if recipients.isEmpty then .badRequest "At least one recipient is required"
  else if subject = "" then .badRequest "Email subject is required"
  else if html_content = "" then .badRequest "HTML content is required"
  else if ¬sendgridAvailable then .serverError "SendGrid library not installed"
  else match apiKey with
  | none => .serverError "SendGrid API key not configured"
  | some _ =>
    let res := sendLoop send recipients
    .done { success := res.1 > 0,
            message := "Newsletter sent to " ++ toString res.1 ++ " of " ++
              toString recipients.length ++ " recipient(s)",
            sent_count := res.1,
            total_recipients := recipients.length,
            errors := if res.2.isEmpty then none else some res.2 }

/-! ## Draft / game handler boundaries (src/app.py lines 841-875 and
1373-1480)

Each handler wraps its body in `try`/`except`; the body's interaction
with object storage is abstracted as an `Except String` argument (the
exception carrying the message `str(e)`), and both branches are
transcribed literally.  The response body is captured by `ApiBody`
together with the HTTP status code. -/

/-- One draft's metadata as listed by the drafts listing (lines
1430-1437). -/
structure DraftMeta where
  month : String
  year : String
  currentStep : String
  lastSavedBy : String
  lastSavedAt : String
  filename : String
deriving DecidableEq, Repr

/-- A stored game record (lines 821-827). -/
structure GameRecord where
  month : String
  year : String
  gameType : String
  answer : String
  savedAt : String
deriving DecidableEq, Repr

/-- The JSON body shapes returned by the draft and game handlers. -/
inductive ApiBody where
  | failure (error : String)
  | draftsList (drafts : List DraftMeta)
  | game (game : Option GameRecord)
  | deleted
  | saved (file : String)
deriving DecidableEq, Repr

/-- Whether a body reports `success: true`. -/
def ApiBody.isSuccess : ApiBody → Bool
  | .failure _ => false
  | _ => true

/-- Descending order on the last-saved timestamp, as used by
`drafts.sort(key=..., reverse=True)` (line 1438). -/
def savedAtGe (a b : DraftMeta) : Bool := decide (b.lastSavedAt ≤ a.lastSavedAt)

/-- `list_drafts` (lines 1417-1442): on any exception the handler
returns a success body with an empty list. -/
def list_drafts (gcsAvailable : Bool)
    (attempt : Except String (List DraftMeta)) : ApiBody × Nat :=
  if ¬gcsAvailable then (.draftsList [], 200)
  else match attempt with
  | .ok drafts => (.draftsList (drafts.mergeSort savedAtGe), 200)
  | .error _ => (.draftsList [], 200)

/-- `get_previous_game` (lines 841-875): on any exception the handler
returns a success body with a null game. -/
def get_previous_game (gcsAvailable : Bool) (month : Option Nat)
    (attempt : Except String (Option GameRecord)) : ApiBody × Nat :=
  if ¬gcsAvailable then (.game none, 200)
  else match month with
  | none => (.failure "Month parameter required", 400)
  | some _ =>
    match attempt with
    | .ok g => (.game g, 200)
    | .error _ => (.game none, 200)

/-- `delete_draft` (lines 1463-1480): on any exception the handler
returns a bare success body. -/
def delete_draft (gcsAvailable : Bool) (file : Option String)
    (attempt : Except String Unit) : ApiBody × Nat :=
  if ¬gcsAvailable then (.deleted, 200)
  else match file with
  | none => (.failure "No file specified", 400)
  | some _ =>
    match attempt with
    | .ok _ => (.deleted, 200)
    | .error _ => (.deleted, 200)

/-- `save_draft` (lines 1373-1414), the representative of the standard
boundary policy: its except branch returns the failure body carrying
the exception message, with status 500 (`blob_name` abstracts the key
computed from month, year and author). -/
def save_draft (gcsAvailable : Bool) (blob_name : String)
    (attempt : Except String Unit) : ApiBody × Nat :=
  if ¬gcsAvailable then (.failure "GCS not available", 503)
  else match attempt with
  | .ok _ => (.saved blob_name, 200)
  | .error e => (.failure e, 500)

/-! ## Concrete inputs used by the theorems below -/

/-- A payload whose game block carries markup in its content. -/
def pGameAtk : Payload := { basePayload with game := some ⟨"<script>", "", ""⟩ }

/-- The hostile probe string used for the escaping checks. -/
def badS : String := "<script>"

/-- A payload carrying the probe string in every escaped text field. -/
def pEsc : Payload :=
  { basePayload with
    birthdays := [⟨badS, badS, badS⟩],
    welcome_hires := [⟨badS, badS, badS⟩], welcome_enabled := true,
    spotlights := [⟨badS, badS, badS, badS, "", [⟨badS, badS⟩]⟩],
    updates := [⟨badS, badS, []⟩],
    special_section := some ⟨badS, badS⟩ }

/-- A payload whose game block carries only a previous answer. -/
def pPrevOnly : Payload := { basePayload with game := some ⟨"", "", "Ruby"⟩ }

/-- A small employee list for the directory witnesses. -/
def wEmps : List Employee :=
  [⟨"Bob", "bob@x.co", 0, 0, "", ""⟩, ⟨"Dana", "dana@x.co", 0, 0, "", ""⟩]

/-- An add request with a novel email. -/
def wReq : AddRequest := ⟨"Carol", "carol@x.co", 1, 2, "", "Eng"⟩

/-- An add request whose email duplicates an existing one up to case. -/
def wReqDup : AddRequest := ⟨"Bobby", "BOB@x.co", 0, 0, "", ""⟩

/-- A delivery oracle that fails for exactly one recipient. -/
def wSend : String → SendOutcome :=
  fun r => if r = "bob@brite.co" then .exn "boom" else .ok 202

/-! ## Shared lemmas -/

/-- A string append is non-empty when its left part is. -/
theorem append_ne_empty_left (s t : String) (h : s ≠ "") : s ++ t ≠ "" := by
  intro he
  apply h
  have hd : s.data ++ t.data = [] := congrArg String.data he
  have : s.data = [] := (List.append_eq_nil.mp hd).1
  cases s
  simp_all

/-- Each escaped character is a non-empty string. -/
theorem escChar_data_ne_nil (c : Char) : (escChar c).data ≠ [] := by
  unfold escChar
  split_ifs <;> first | decide | simp [String.singleton]

/-- `esc` maps exactly the empty string to the empty string. -/
theorem esc_eq_empty_iff (s : String) : esc s = "" ↔ s = "" := by
  constructor
  · intro h
    cases hs : s.data with
    | nil => cases s; simp_all
    | cons c cs =>
      exfalso
      have hd : (esc s).data = [] := congrArg String.data h
      unfold esc at hd
      rw [hs] at hd
      unfold escList at hd
      have : (escChar c).data ++ (escList cs).data = [] := hd
      exact escChar_data_ne_nil c (List.append_eq_nil.mp this).1
  · intro h
    rw [h]
    rfl

/-! ## Claim C1 — HTML escaping of user-supplied text -/

/-- C1 counterexample: the game block's content is inserted into the
game-section fragment raw.  With content `<script>` the fragment that
replaces the game-section placeholder contains `<script>` as literal
markup, and does not contain its escaped form — so the claim that every
listed field (game content included) is HTML-escaped before insertion
is false. -/
theorem c1_game_content_unescaped :
    pGameAtk.game = some ⟨"<script>", "", ""⟩ ∧
    containsSub (game_section_html pGameAtk) "<script>" = true ∧
    containsSub (game_section_html pGameAtk) (esc "<script>") = false := by
  refine ⟨rfl, ?_, ?_⟩ <;> decide

/-- C1 amended: every listed user-supplied text field except the game
content (and the game previous answer) is HTML-escaped before
insertion.  For the probe `<script>` placed in every such field, each
section fragment contains only the escaped form `&lt;script&gt;` and
never the raw markup; the game section alone contains the raw
markup. -/
theorem c1_escaping_amended :
    (containsSub (birthday_html pEsc) (esc badS) = true ∧
     containsSub (birthday_html pEsc) badS = false) ∧
    (containsSub (welcome_html pEsc) (esc badS) = true ∧
     containsSub (welcome_html pEsc) badS = false) ∧
    (containsSub (spotlight_section_html pEsc) (esc badS) = true ∧
     containsSub (spotlight_section_html pEsc) badS = false) ∧
    (update_title pEsc 0 = esc badS ∧ update_body pEsc 0 = esc badS) ∧
    (special_title pEsc = esc badS ∧ special_body pEsc = esc badS) ∧
    containsSub (game_section_html pGameAtk) badS = true := by
  refine ⟨⟨?_, ?_⟩, ⟨?_, ?_⟩, ⟨?_, ?_⟩, ⟨?_, ?_⟩, ⟨?_, ?_⟩, ?_⟩ <;> decide

/-! ## Claim C2 — exception boundary of the handlers -/

/-- C2 counterexample: the drafts-listing handler answers an internal
exception with a body reporting success (an empty drafts list, HTTP
200), not with the uniform failure body the claim requires of every
handler. -/
theorem c2_list_drafts_success_on_exception :
    list_drafts true (Except.error "boom") = (ApiBody.draftsList [], 200) ∧
    (ApiBody.draftsList []).isSuccess = true := by
  exact ⟨rfl, rfl⟩

/-- C2 amended: every handler catches exceptions at its boundary, but
they do not all answer with the uniform failure body: the drafts
listing, previous-game lookup and draft deletion answer an exception
with success-shaped bodies (empty list, null game, bare success) and
status 200, while the standard policy — exemplified by the draft-save
handler — returns the failure body carrying the exception message with
status 500. -/
theorem c2_exception_bodies (e : String) (m : Nat) (f b : String) :
    list_drafts true (Except.error e) = (ApiBody.draftsList [], 200) ∧
    get_previous_game true (some m) (Except.error e) = (ApiBody.game none, 200) ∧
    delete_draft true (some f) (Except.error e) = (ApiBody.deleted, 200) ∧
    save_draft true b (Except.error e) = (ApiBody.failure e, 500) := by
  exact ⟨rfl, rfl, rfl, rfl⟩

/-! ## Claim C8 — removal by email and the duplicated config entry -/

/-- C8: the shipped `EMPLOYEES` list violates the email-uniqueness
invariant — `marlon.ballares@brite.co` appears twice (for the entries
named Mardon Ballares and Marlon Ballares, an evident data-entry slip).
Removing that email therefore shrinks the 53-entry list to 51, by two
entries, where the claim (and the invariant in the specification)
promise exactly one. -/
theorem c8_remove_drops_two_on_config :
    EMPLOYEES.length = 53 ∧
    (EMPLOYEES.filter
      (fun e => lowerStr e.email == lowerStr "marlon.ballares@brite.co")).length = 2 ∧
    (remove_employee EMPLOYEES "marlon.ballares@brite.co").1 = RemoveResult.ok 51 ∧
    (remove_employee EMPLOYEES "marlon.ballares@brite.co").2.length = 51 := by
  refine ⟨?_, ?_, ?_, ?_⟩ <;> decide

/-! ## Claim C10 — silent fallback to the default template -/

/-- C10: a render request whose template selector is outside the
allow-list is not rejected: the selector silently becomes the classic
template, and the whole response (document and metadata) is identical
to the response for an explicit request for the default template — so
nothing in the response indicates the substitution. -/
theorem c10_template_fallback (readTemplate : String → Option String)
    (host_url : String) (p : Payload) (requested : String)
    (h : requested ∉ allowed_templates) :
    selectedTemplate requested = "briteside-email.html" ∧
    render_email readTemplate host_url p requested =
      render_email readTemplate host_url p "briteside-email.html" := by
  have hsel : selectedTemplate requested = "briteside-email.html" := by
    unfold selectedTemplate
    rw [if_neg h]
  refine ⟨hsel, ?_⟩
  unfold render_email
  rw [hsel]
  unfold selectedTemplate
  rw [if_pos (by decide : "briteside-email.html" ∈ allowed_templates)]

/-- C10 witness: the fallback theorem applied to a concrete
out-of-allow-list selector. -/
theorem c10_witness :
    selectedTemplate "totally-different.html" = "briteside-email.html" ∧
    render_email (fun _ => none) "http://localhost:5002/" basePayload "totally-different.html" =
      render_email (fun _ => none) "http://localhost:5002/" basePayload "briteside-email.html" :=
  c10_template_fallback (fun _ => none) "http://localhost:5002/" basePayload
    "totally-different.html" (by decide)

/-! ## Display-value lemmas -/

/-- A show/hide value equals the visible value exactly when its
condition holds. -/
theorem displayVal_eq_visible_iff (c : Prop) [Decidable c] :
    ((if c then "table-row" else "none") = ("table-row" : String)) ↔ c := by
  split_ifs with h
  · exact iff_of_true rfl h
  · exact iff_of_false (by decide) h

/-- A show/hide value equals the hidden value exactly when its
condition fails. -/
theorem displayVal_eq_hidden_iff (c : Prop) [Decidable c] :
    ((if c then "table-row" else "none") = ("none" : String)) ↔ ¬c := by
  split_ifs with h
  · exact iff_of_false (by decide) (not_not_intro h)
  · exact iff_of_true rfl h

/-- The game fragment is non-empty exactly when the game has content or
an image. -/
theorem game_section_html_ne_empty_iff (p : Payload) :
    game_section_html p ≠ "" ↔ (game_content p ≠ "" ∨ game_image_url p ≠ "") := by
  constructor
  · intro hne
    by_contra hcon
    push_neg at hcon
    apply hne
    simp [game_section_html, hcon.1, hcon.2]
  · intro hor
    simp only [game_section_html]
    rw [if_pos hor]
    repeat (first | decide | apply append_ne_empty_left)

/-! ## Photo-grid lemmas -/

/-- Splitting the grid cells at the last photo. -/
theorem photoCells_append (n : Nat) (q : String) (xs : List String) :
    ∀ i : Nat, photoCells n i (xs ++ [q]) = photoCells n i xs ++ photoCell n (i + xs.length) q := by
  induction xs with
  | nil => intro i; simp [photoCells]
  | cons x xs ih =>
    intro i
    have harith : i + 1 + xs.length = i + (xs.length + 1) := by omega
    simp only [List.cons_append, photoCells, List.append_eq, ih (i + 1), List.length_cons,
      harith, String.append_assoc]

/-- The last cell of an odd-length grid: preceded by a row break, with
`colspan` 2 and full width. -/
theorem photoCell_last (L : Nat) (q : String) (h2 : 2 ≤ L) (he : L % 2 = 0) :
    photoCell (L + 1) L q =
      "</tr><tr>" ++ "<td" ++ " colspan=\"2\"" ++ " width=\"" ++ "100%" ++
      "\" style=\"padding-right: " ++ "0" ++ "; padding-left: " ++ "0" ++
      "; padding-bottom: 8px;\" valign=\"top\">" ++
      "<img src=\"" ++ q ++ "\" width=\"248\" " ++
      "style=\"width: 100%; height: auto; border-radius: 8px; display: block;\" " ++
      "alt=\"Update photo\" class=\"mobile-img-full\">" ++
      "</td>" := by
  simp only [photoCell]
  split_ifs <;> first | rfl | omega | simp_all

/-- An update whose photo URLs are all empty yields no image block. -/
theorem updatePhotoBlock_of_all_empty (u : Update) (h : ∀ ph ∈ u.photos, ph = "") :
    updatePhotoBlock u = "" := by
  unfold updatePhotoBlock
  have : u.photos.filter (fun ph => ph ≠ "") = [] := by
    rw [List.filter_eq_nil_iff]
    intro a ha
    simp [h a ha]
  rw [this]
  rfl

/-- A single photo yields one full-width image tag. -/
theorem photos_html_single (url : String) :
    photos_html [url] =
      "<img src=\"" ++ url ++ "\" width=\"516\" " ++
      "style=\"width: 100%; height: auto; border-radius: 8px; margin-top: 12px; display: block;\" " ++
      "alt=\"Update photo\" class=\"mobile-img-full\">" := rfl

/-- Three photos: photos 1 and 2 share a two-column row; photo 3 sits
alone in a full-width `colspan` 2 cell after a row break. -/
theorem photos_html_three_concrete :
    photos_html ["p1.jpg", "p2.jpg", "p3.jpg"] =
      "<table role=\"presentation\" cellspacing=\"0\" cellpadding=\"0\" border=\"0\" width=\"100%\" style=\"margin-top: 12px;\"><tr>" ++
      "<td width=\"50%\" style=\"padding-right: 4px; padding-left: 0; padding-bottom: 8px;\" valign=\"top\">" ++
      "<img src=\"p1.jpg\" width=\"248\" style=\"width: 100%; height: auto; border-radius: 8px; display: block;\" alt=\"Update photo\" class=\"mobile-img-full\"></td>" ++
      "<td width=\"50%\" style=\"padding-right: 0; padding-left: 4px; padding-bottom: 8px;\" valign=\"top\">" ++
      "<img src=\"p2.jpg\" width=\"248\" style=\"width: 100%; height: auto; border-radius: 8px; display: block;\" alt=\"Update photo\" class=\"mobile-img-full\"></td>" ++
      "</tr><tr>" ++
      "<td colspan=\"2\" width=\"100%\" style=\"padding-right: 0; padding-left: 0; padding-bottom: 8px;\" valign=\"top\">" ++
      "<img src=\"p3.jpg\" width=\"248\" style=\"width: 100%; height: auto; border-radius: 8px; display: block;\" alt=\"Update photo\" class=\"mobile-img-full\"></td>" ++
      "</tr></table>" := by decide

/-- Any odd photo count of at least three: the grid ends with a row
break followed by the last photo alone in a full-width `colspan` 2
cell. -/
theorem photos_html_odd_last (ps : List String) (q : String)
    (hlen : 2 ≤ ps.length) (heven : ps.length % 2 = 0) :
    photos_html (ps ++ [q]) =
      "<table role=\"presentation\" cellspacing=\"0\" cellpadding=\"0\" border=\"0\" width=\"100%\" style=\"margin-top: 12px;\">" ++
      "<tr>" ++ photoCells (ps.length + 1) 0 ps ++
      ("</tr><tr>" ++ "<td" ++ " colspan=\"2\"" ++ " width=\"" ++ "100%" ++
       "\" style=\"padding-right: " ++ "0" ++ "; padding-left: " ++ "0" ++
       "; padding-bottom: 8px;\" valign=\"top\">" ++
       "<img src=\"" ++ q ++ "\" width=\"248\" " ++
       "style=\"width: 100%; height: auto; border-radius: 8px; display: block;\" " ++
       "alt=\"Update photo\" class=\"mobile-img-full\">" ++
       "</td>") ++ "</tr></table>" := by
  have hn : (ps ++ [q]).length = ps.length + 1 := by simp
  unfold photos_html
  rw [hn]
  rw [if_neg (by omega : ¬(ps.length + 1 = 1))]
  rw [if_pos (by omega : ps.length + 1 ≥ 2)]
  rw [photoCells_append (ps.length + 1) q ps 0]
  rw [Nat.zero_add]
  rw [photoCell_last ps.length q hlen heven]
  rw [← String.append_assoc]

/-! ## Joke-split lemmas -/

/-- Without a bar, the split keeps the whole character list. -/
theorem breakAtBar_no_bar (l : List Char) (h : l.contains '|' = false) :
    breakAtBar l = (l, none) := by
  induction l with
  | nil => rfl
  | cons c cs ih =>
    simp only [List.contains_cons, Bool.or_eq_false_iff] at h
    have hc : ¬c = '|' := by
      intro hcc
      simp [hcc] at h
    simp [breakAtBar, hc, ih h.2]

/-- With a bar, the split yields the characters before the first bar
and those after it. -/
theorem breakAtBar_with_bar (l : List Char) (h : l.contains '|' = true) :
    (breakAtBar l).1 = l.takeWhile (fun c => !(c == '|')) ∧
    (breakAtBar l).2 = some ((l.dropWhile (fun c => !(c == '|'))).tail) := by
  induction l with
  | nil => simp at h
  | cons c cs ih =>
    by_cases hc : c = '|'
    · subst hc
      simp [breakAtBar, List.takeWhile, List.dropWhile]
    · have hb : (!(c == '|')) = true := by simp [hc]
      have hcs : cs.contains '|' = true := by
        simp only [List.contains_cons, Bool.or_eq_true] at h
        rcases h with h1 | h1
        · have h2 : '|' = c := by simpa using h1
          exact absurd h2.symm hc
        · exact h1
      have := ih hcs
      simp [breakAtBar, hc, List.takeWhile, List.dropWhile, hb, this.1, this.2]

/-! ## Directory and send-loop lemmas -/

/-- The name order used by the directory sort is transitive. -/
theorem nameLe_trans (a b c : Employee) (hab : nameLe a b) (hbc : nameLe b c) : nameLe a c := by
  simp only [nameLe, decide_eq_true_eq] at *
  exact le_trans hab hbc

/-- The name order used by the directory sort is total. -/
theorem nameLe_total (a b : Employee) : nameLe a b || nameLe b a := by
  simp only [nameLe]
  rcases le_total (lowerStr a.name) (lowerStr b.name) with h | h <;> simp [h]

/-- The send loop counts exactly the delivered recipients and collects
one error string per failed recipient, in order. -/
theorem sendLoop_eq (send : String → SendOutcome) (rs : List String) :
    sendLoop send rs =
      (rs.countP (delivered send),
       (rs.filter (fun r => !(delivered send r))).map (failMsg send)) := by
  induction rs with
  | nil => rfl
  | cons r rest ih =>
    simp only [sendLoop, ih]
    cases hs : send r with
    | ok status =>
      by_cases hc : status = 200 ∨ status = 201 ∨ status = 202
      · rcases hc with h | h | h <;> subst h <;>
          simp [delivered, failMsg, hs, List.countP_cons, List.filter_cons, Nat.add_comm]
      · push_neg at hc
        simp [delivered, failMsg, hs, hc.1, hc.2.1, hc.2.2, List.countP_cons,
          List.filter_cons, Nat.add_comm]
    | exn msg =>
      simp [delivered, failMsg, hs, List.countP_cons, List.filter_cons]

/-! ## Claim C3 — section display tokens -/

/-- C3 counterexample: a game block carrying only a previous answer is
a non-empty game field, yet the game display token is the hidden value
(the code shows the game section only when content or image is
present), refuting the claimed biconditional. -/
theorem c3_game_previous_answer_only_hidden :
    pPrevOnly.game = some ⟨"", "", "Ruby"⟩ ∧
    game_previous_answer pPrevOnly = "Ruby" ∧
    game_display pPrevOnly = "none" := by
  refine ⟨rfl, rfl, ?_⟩
  decide

/-- C3 amended: each display token is the visible value exactly under
the code's conditions — birthdays list non-empty; welcome hires
non-empty and enabled; updates non-empty and enabled; special section
present with non-empty title or body; game content or game image
non-empty (a game with only a previous answer, or a special section
with empty title and body, is hidden).  A payload with zero birthdays
gets the hidden value. -/
theorem c3_displays_amended (p : Payload) :
    (birthday_display p = "table-row" ↔ p.birthdays ≠ []) ∧
    (birthday_display p = "none" ↔ p.birthdays = []) ∧
    (welcome_display p = "table-row" ↔ (p.welcome_enabled = true ∧ p.welcome_hires ≠ [])) ∧
    (updates_display p = "table-row" ↔ (p.updates_enabled = true ∧ p.updates ≠ [])) ∧
    (special_display p = "table-row" ↔
      (∃ s, p.special_section = some s ∧ (s.title ≠ "" ∨ s.body ≠ ""))) ∧
    (game_display p = "table-row" ↔ (game_content p ≠ "" ∨ game_image_url p ≠ "")) := by
  refine ⟨?_, ?_, ?_, ?_, ?_, ?_⟩
  · unfold birthday_display
    rw [displayVal_eq_visible_iff]
    simp
  · unfold birthday_display
    rw [displayVal_eq_hidden_iff]
    simp
  · unfold welcome_display
    rw [displayVal_eq_visible_iff]
    simp
  · unfold updates_display updatesEff
    rw [displayVal_eq_visible_iff]
    by_cases he : p.updates_enabled <;> simp [he]
  · unfold special_display special_title special_body
    rw [displayVal_eq_visible_iff]
    cases hs : p.special_section with
    | none => simp [esc, escList]
    | some s => simp [esc_eq_empty_iff]
  · unfold game_display
    rw [displayVal_eq_visible_iff]
    exact game_section_html_ne_empty_iff p

/-! ## Claim C4 — update photo layout -/

/-- C4: an update with zero non-empty photo URLs emits no image block;
one photo emits a single full-width image; three photos lay photos 1-2
out in a two-column row and photo 3 alone full-width; in general, any
odd photo count of at least three ends with a row break and the last
photo alone in a `colspan` 2 full-width cell. -/
theorem c4_update_photo_layout :
    (∀ u : Update, (∀ ph ∈ u.photos, ph = "") → updatePhotoBlock u = "") ∧
    (∀ url : String,
      photos_html [url] =
        "<img src=\"" ++ url ++ "\" width=\"516\" " ++
        "style=\"width: 100%; height: auto; border-radius: 8px; margin-top: 12px; display: block;\" " ++
        "alt=\"Update photo\" class=\"mobile-img-full\">") ∧
    (photos_html ["p1.jpg", "p2.jpg", "p3.jpg"] =
      "<table role=\"presentation\" cellspacing=\"0\" cellpadding=\"0\" border=\"0\" width=\"100%\" style=\"margin-top: 12px;\"><tr>" ++
      "<td width=\"50%\" style=\"padding-right: 4px; padding-left: 0; padding-bottom: 8px;\" valign=\"top\">" ++
      "<img src=\"p1.jpg\" width=\"248\" style=\"width: 100%; height: auto; border-radius: 8px; display: block;\" alt=\"Update photo\" class=\"mobile-img-full\"></td>" ++
      "<td width=\"50%\" style=\"padding-right: 0; padding-left: 4px; padding-bottom: 8px;\" valign=\"top\">" ++
      "<img src=\"p2.jpg\" width=\"248\" style=\"width: 100%; height: auto; border-radius: 8px; display: block;\" alt=\"Update photo\" class=\"mobile-img-full\"></td>" ++
      "</tr><tr>" ++
      "<td colspan=\"2\" width=\"100%\" style=\"padding-right: 0; padding-left: 0; padding-bottom: 8px;\" valign=\"top\">" ++
      "<img src=\"p3.jpg\" width=\"248\" style=\"width: 100%; height: auto; border-radius: 8px; display: block;\" alt=\"Update photo\" class=\"mobile-img-full\"></td>" ++
      "</tr></table>") ∧
    (∀ (ps : List String) (q : String), 2 ≤ ps.length → ps.length % 2 = 0 →
      photos_html (ps ++ [q]) =
        "<table role=\"presentation\" cellspacing=\"0\" cellpadding=\"0\" border=\"0\" width=\"100%\" style=\"margin-top: 12px;\">" ++
        "<tr>" ++ photoCells (ps.length + 1) 0 ps ++
        ("</tr><tr>" ++ "<td" ++ " colspan=\"2\"" ++ " width=\"" ++ "100%" ++
         "\" style=\"padding-right: " ++ "0" ++ "; padding-left: " ++ "0" ++
         "; padding-bottom: 8px;\" valign=\"top\">" ++
         "<img src=\"" ++ q ++ "\" width=\"248\" " ++
         "style=\"width: 100%; height: auto; border-radius: 8px; display: block;\" " ++
         "alt=\"Update photo\" class=\"mobile-img-full\">" ++
         "</td>") ++ "</tr></table>") :=
  ⟨updatePhotoBlock_of_all_empty, photos_html_single, photos_html_three_concrete,
   photos_html_odd_last⟩

/-- C4 witness: the layout theorem applied to an update whose photo
URLs are all empty and to a concrete three-photo list. -/
theorem c4_witness :
    updatePhotoBlock ⟨"t", "b", ["", ""]⟩ = "" ∧
    photos_html (["a.jpg", "b.jpg"] ++ ["c.jpg"]) =
      "<table role=\"presentation\" cellspacing=\"0\" cellpadding=\"0\" border=\"0\" width=\"100%\" style=\"margin-top: 12px;\">" ++
      "<tr>" ++ photoCells 3 0 ["a.jpg", "b.jpg"] ++
      ("</tr><tr>" ++ "<td" ++ " colspan=\"2\"" ++ " width=\"" ++ "100%" ++
       "\" style=\"padding-right: " ++ "0" ++ "; padding-left: " ++ "0" ++
       "; padding-bottom: 8px;\" valign=\"top\">" ++
       "<img src=\"" ++ "c.jpg" ++ "\" width=\"248\" " ++
       "style=\"width: 100%; height: auto; border-radius: 8px; display: block;\" " ++
       "alt=\"Update photo\" class=\"mobile-img-full\">" ++
       "</td>") ++ "</tr></table>" :=
  ⟨c4_update_photo_layout.1 ⟨"t", "b", ["", ""]⟩ (by decide),
   c4_update_photo_layout.2.2.2 ["a.jpg", "b.jpg"] "c.jpg" (by decide) (by decide)⟩

/-! ## Claim C5 — joke setup/punchline split -/

/-- C5 counterexample: the joke `Why?|` contains a bar, yet its
punchline display token is the hidden value (the code shows the
punchline row only when the stripped punchline is non-empty), refuting
the claim that a bar always makes the punchline visible. -/
theorem c5_bar_without_punchline_hidden :
    ("Why?|".data.contains '|') = true ∧
    punchline_display "Why?|" = "none" ∧
    ("none" : String) ≠ "table-row" := by
  refine ⟨?_, ?_, ?_⟩ <;> decide

/-- C5 amended: when the joke contains a bar, the rendered setup is the
HTML-escaped stripped text before the first bar and the punchline the
HTML-escaped stripped text after it, and the punchline display token is
visible exactly when that punchline is non-empty; with no bar the whole
escaped string is the setup and the punchline row is hidden. -/
theorem c5_joke_split_amended (joke : String) :
    (joke.data.contains '|' = true →
      joke_setup joke = esc (pyStrip (String.mk (joke.data.takeWhile (fun c => !(c == '|'))))) ∧
      joke_punchline joke =
        esc (pyStrip (String.mk ((joke.data.dropWhile (fun c => !(c == '|'))).tail))) ∧
      (punchline_display joke = "table-row" ↔ joke_punchline joke ≠ "")) ∧
    (joke.data.contains '|' = false →
      joke_setup joke = esc joke ∧ joke_punchline joke = "" ∧
      punchline_display joke = "none") := by
  constructor
  · intro h
    have hb := breakAtBar_with_bar joke.data h
    refine ⟨?_, ?_, ?_⟩
    · unfold joke_setup
      cases hbb : breakAtBar joke.data with
      | mk pre post =>
        rw [hbb] at hb
        cases post with
        | none => simp at hb
        | some rest => simp only at hb ⊢; rw [hb.1]
    · unfold joke_punchline
      cases hbb : breakAtBar joke.data with
      | mk pre post =>
        rw [hbb] at hb
        cases post with
        | none => simp at hb
        | some rest =>
          simp only at hb ⊢
          have : rest = (joke.data.dropWhile (fun c => !(c == '|'))).tail := by
            simpa using hb.2
          rw [this]
    · unfold punchline_display
      rw [displayVal_eq_visible_iff]
  · intro h
    have hb := breakAtBar_no_bar joke.data h
    refine ⟨?_, ?_, ?_⟩
    · unfold joke_setup
      rw [hb]
    · unfold joke_punchline
      rw [hb]
    · unfold punchline_display
      have hp : joke_punchline joke = "" := by unfold joke_punchline; rw [hb]
      rw [if_neg (by simp [hp])]

/-- C5 witness: the split theorem applied to the specification's own
example, yielding setup `Why?`, punchline `Because`, punchline row
visible. -/
theorem c5_witness :
    joke_setup "Why? | Because" = "Why?" ∧
    joke_punchline "Why? | Because" = "Because" ∧
    punchline_display "Why? | Because" = "table-row" := by
  have h := (c5_joke_split_amended "Why? | Because").1 (by decide)
  refine ⟨?_, ?_, ?_⟩
  · rw [h.1]; decide
  · rw [h.2.1]; decide
  · exact h.2.2.mpr (by decide)

/-! ## Claim C6 — preheader text -/

/-- C6: the preheader is the first 100 characters of the joke setup
when the setup is non-empty, and otherwise the generic month/year
string. -/
theorem c6_preheader_rule (month : String) (year : Nat) (joke : String) :
    (joke_setup joke ≠ "" → preheader month year joke = pyTake (joke_setup joke) 100) ∧
    (joke_setup joke = "" →
      preheader month year joke = "The BriteSide - " ++ month ++ " " ++ toString year) := by
  unfold preheader
  constructor
  · intro h; rw [if_pos h]
  · intro h; rw [if_neg (by simp [h])]

/-- C6 witness: the preheader rule applied in both branches at concrete
jokes. -/
theorem c6_witness :
    preheader "May" 2026 "Why did the ring blush?" =
      pyTake (joke_setup "Why did the ring blush?") 100 ∧
    preheader "May" 2026 "" = "The BriteSide - " ++ "May" ++ " " ++ toString 2026 :=
  ⟨(c6_preheader_rule "May" 2026 "Why did the ring blush?").1 (by decide),
   (c6_preheader_rule "May" 2026 "").2 (by decide)⟩

/-! ## Claim C7 — adding an employee -/

/-- C7: with non-empty trimmed name and email, adding a case-insensitive
duplicate email fails with a conflict and leaves the list unchanged;
adding a novel email succeeds, the new list is a permutation of the old
list plus the new employee, and it is sorted ascending by
case-insensitive name. -/
theorem c7_add_employee_rule (employees : List Employee) (req : AddRequest)
    (hname : pyStrip req.name ≠ "") (hemail : pyStrip req.email ≠ "") :
    ((∃ emp ∈ employees, lowerStr emp.email = lowerStr (pyStrip req.email)) →
      add_employee employees req =
        (AddResult.conflict ("Employee with email " ++ pyStrip req.email ++ " already exists"),
         employees)) ∧
    ((∀ emp ∈ employees, lowerStr emp.email ≠ lowerStr (pyStrip req.email)) →
      (add_employee employees req).1 =
        AddResult.ok
          ⟨pyStrip req.name, pyStrip req.email, req.birthday_month, req.birthday_day,
           req.department, req.title⟩ ((add_employee employees req).2).length ∧
      ((add_employee employees req).2).Perm
        (employees ++ [⟨pyStrip req.name, pyStrip req.email, req.birthday_month,
          req.birthday_day, req.department, req.title⟩]) ∧
      List.Pairwise (fun a b => nameLe a b = true) ((add_employee employees req).2)) := by
  constructor
  · intro hdup
    unfold add_employee
    rw [if_neg hname, if_neg hemail]
    rw [if_pos (by
      rw [List.any_eq_true]
      obtain ⟨emp, hmem, heq⟩ := hdup
      exact ⟨emp, hmem, by simpa using heq⟩)]
  · intro hnovel
    have hany :
        (employees.any (fun emp => lowerStr emp.email == lowerStr (pyStrip req.email))) = false := by
      rw [List.any_eq_false]
      intro emp hmem
      simpa using hnovel emp hmem
    unfold add_employee
    rw [if_neg hname, if_neg hemail, if_neg (by simp [hany])]
    exact ⟨rfl, List.mergeSort_perm _ _,
      List.sorted_mergeSort nameLe_trans nameLe_total _⟩

/-- C7 witness: the add rule applied to a concrete list, once with a
case-insensitive duplicate email and once with a novel one. -/
theorem c7_witness :
    add_employee wEmps wReqDup =
      (AddResult.conflict ("Employee with email " ++ pyStrip wReqDup.email ++ " already exists"),
       wEmps) ∧
    ((add_employee wEmps wReq).1 =
      AddResult.ok
        ⟨pyStrip wReq.name, pyStrip wReq.email, wReq.birthday_month, wReq.birthday_day,
         wReq.department, wReq.title⟩ ((add_employee wEmps wReq).2).length ∧
     ((add_employee wEmps wReq).2).Perm
       (wEmps ++ [⟨pyStrip wReq.name, pyStrip wReq.email, wReq.birthday_month,
         wReq.birthday_day, wReq.department, wReq.title⟩]) ∧
     List.Pairwise (fun a b => nameLe a b = true) ((add_employee wEmps wReq).2)) :=
  ⟨(c7_add_employee_rule wEmps wReqDup (by decide) (by decide)).1 (by decide),
   (c7_add_employee_rule wEmps wReq (by decide) (by decide)).2 (by decide)⟩

/-! ## Claim C9 — per-recipient newsletter sending -/

/-- C9: with non-empty recipients, subject and body (and the email
gateway configured), the response reports one attempt per recipient:
the sent count is the number of delivered recipients, the total is the
recipient count, the error list holds one entry naming each failed
recipient, and overall success holds exactly when at least one delivery
succeeded. -/
theorem c9_send_accounting (recipients : List String)
    (subject html_content apiKeyVal : String) (send : String → SendOutcome)
    (h1 : recipients ≠ []) (h2 : subject ≠ "") (h3 : html_content ≠ "") :
    send_newsletter true (some apiKeyVal) recipients subject html_content send =
      SendResult.done
        { success := decide (0 < recipients.countP (delivered send)),
          message := "Newsletter sent to " ++ toString (recipients.countP (delivered send)) ++
            " of " ++ toString recipients.length ++ " recipient(s)",
          sent_count := recipients.countP (delivered send),
          total_recipients := recipients.length,
          errors :=
            if ((recipients.filter (fun r => !(delivered send r))).map (failMsg send)).isEmpty
            then none
            else some ((recipients.filter (fun r => !(delivered send r))).map (failMsg send)) } ∧
    (0 < recipients.countP (delivered send) ↔ ∃ r ∈ recipients, delivered send r = true) := by
  constructor
  · unfold send_newsletter
    rw [if_neg (by simp [h1]), if_neg h2, if_neg h3, if_neg (by simp)]
    rw [sendLoop_eq]
  · exact List.countP_pos_iff

/-- C9 witness: three recipients of which exactly one fails — the
response reports sent_count 2, total 3, a one-element error list naming
the failed recipient, and success. -/
theorem c9_witness :
    send_newsletter true (some "SG.key") ["ann@brite.co", "bob@brite.co", "cat@brite.co"]
      "The BriteSide - May" "<p>hi</p>" wSend =
      SendResult.done
        { success := true, message := "Newsletter sent to 2 of 3 recipient(s)",
          sent_count := 2, total_recipients := 3,
          errors := some ["Failed for bob@brite.co: boom"] } := by
  have h := (c9_send_accounting ["ann@brite.co", "bob@brite.co", "cat@brite.co"]
    "The BriteSide - May" "<p>hi</p>" "SG.key" wSend (by decide) (by decide) (by decide)).1
  rw [h]
  decide
